import Mathlib

/-!
# forge-triage — verification of the sync-and-cache orchestration layer

A shallow embedding of the core of `forge_triage` (notification cache,
priority engine, sync pipeline, backend worker) together with proofs of the
specification's testable properties.

Modelling conventions:
* the SQLite `notifications` table is a list of `Notification` rows, queried
  by `notification_id` exactly as the SQL statements do (a `SELECT ... WHERE
  notification_id = ?` is `List.find?`, a `DELETE ... WHERE p` is a filter
  by `¬ p`, an `UPDATE ... WHERE notification_id = ?` maps over the list);
* SQLite TEXT comparison on ISO-8601 timestamps is string comparison; we use
  the linear order on `String`;
* the opaque `raw_json` payload column is kept structured (a `RawNotif`);
  `json.dumps` / `json.loads` round-trips are the identity on that value;
* network calls (the remote gateway) are oracle functions passed as
  arguments, returning `Except String α` — a raised exception is an
  `Except.error` carrying `str(e)`;
* `async` fan-out (`asyncio.gather` with a semaphore) over per-notification
  work that touches disjoint rows is determinised as sequential iteration in
  row order.
-/

/-- The shape of one item of GitHub's notification-list JSON, as read by
`forge_triage.sync` and `forge_triage.db` (`notif["id"]`,
`notif["repository"]["owner"]["login"]`, `notif["subject"]["url"]`, ...). -/
structure RawNotif where
  id : String
  repoOwner : String
  repoName : String
  subjectType : String
  subjectTitle : String
  subjectUrl : Option String
  reason : String
  updated_at : String
  unread : Bool
  deriving Repr, DecidableEq

/-- A row of the `notifications` table (the `Notification` dataclass of
`forge_triage.db`). `raw_json` is kept structured as a `RawNotif`. -/
structure Notification where
  notification_id : String
  repo_owner : String
  repo_name : String
  subject_type : String
  subject_title : String
  subject_url : Option String
  html_url : Option String
  reason : String
  updated_at : String
  unread : Nat
  priority_score : Int
  priority_tier : String
  raw_json : RawNotif
  comments_loaded : Nat
  last_viewed_at : Option String
  ci_status : Option String
  subject_state : Option String
  deriving Repr, DecidableEq

/-- A row of the `comments` table (the `Comment` dataclass of
`forge_triage.db`). -/
structure Comment where
  comment_id : String
  notification_id : String
  author : String
  body : String
  created_at : String
  updated_at : String
  deriving Repr, DecidableEq

/-- Embeds `SELECT * FROM notifications WHERE notification_id = ?`
(`db.get_notification`). -/
def get_notification (db : List Notification) (nid : String) :
    Option Notification :=
  db.find? (fun n => n.notification_id = nid)

/-- Embeds `SELECT count(*) FROM notifications` (`db.get_notification_count`). -/
def get_notification_count (db : List Notification) : Nat :=
  db.length

/-- Embeds `db.upsert_notification`: insert-or-update keyed by `notification_id`.
On the update path the stored `updated_at` is compared with the incoming
one; `comments_loaded` is written as `0` if they differ and as the
caller-supplied `row.comments_loaded` otherwise, and the UPDATE statement
does not mention `last_viewed_at`, so that column keeps its stored value. -/
def upsert_notification (db : List Notification) (row : Notification) :
    List Notification :=
  match get_notification db row.notification_id with
  | none => db ++ [row]
  | some _ =>
    db.map (fun n =>
      if n.notification_id = row.notification_id then
        let updated_at_changed := n.updated_at ≠ row.updated_at
        let cl := if updated_at_changed then 0 else row.comments_loaded
        { row with
          comments_loaded := cl
          last_viewed_at := n.last_viewed_at }
      else n)

/-- Embeds `db.update_last_viewed`: `UPDATE notifications SET last_viewed_at =
datetime('now') WHERE notification_id = ?`; the clock value is a
parameter. -/
def update_last_viewed (db : List Notification) (nid : String)
    (now : String) : List Notification :=
  db.map (fun n =>
    if n.notification_id = nid then { n with last_viewed_at := some now }
    else n)

/-- Embeds `db.mark_comments_loaded`: `UPDATE notifications SET comments_loaded = 1
WHERE notification_id = ?`. -/
def mark_comments_loaded (db : List Notification) (nid : String) :
    List Notification :=
  db.map (fun n =>
    if n.notification_id = nid then { n with comments_loaded := 1 } else n)

/-- Embeds `db.delete_notification` on the `notifications` table:
`DELETE FROM notifications WHERE notification_id = ?`. -/
def delete_notification (db : List Notification) (nid : String) :
    List Notification :=
  db.filter (fun n => n.notification_id ≠ nid)

/-- Comment rows cascade-deleted with their notification.
Modelled from the spec: the repository's `schema.sql` is not in the source
tree; the spec's schema declares `comments.notification_id REFERENCES
notifications ON DELETE CASCADE`. -/
def cascade_delete_comments (cs : List Comment) (nid : String) :
    List Comment :=
  cs.filter (fun c => c.notification_id ≠ nid)

/-- Embeds `db.purge_all_notifications`: `DELETE FROM notifications`. -/
def purge_all_notifications (_db : List Notification) : List Notification :=
  []

/-- Embeds `db.purge_stale_notifications`: `DELETE FROM notifications WHERE
notification_id NOT IN (keep_ids) AND updated_at <= oldest_updated_at`,
returning the deleted row count (`cursor.rowcount`).  SQLite accepts an
empty `IN ()` list (`NOT IN ()` is true), so the empty keep set deletes
every row at or before the cutoff. -/
def purge_stale_notifications (db : List Notification)
    (keep_ids : List String) (oldest_updated_at : String) :
    List Notification × Nat :=
  let deleted := db.filter
    (fun n => n.notification_id ∉ keep_ids ∧ n.updated_at ≤ oldest_updated_at)
  let remaining := db.filter
    (fun n => ¬ (n.notification_id ∉ keep_ids ∧ n.updated_at ≤ oldest_updated_at))
  (remaining, deleted.length)

/-- Embeds `db.map_raw_comments`: map raw GitHub comment JSON to `comments` rows;
a missing `user` becomes the `[deleted]` sentinel author. -/
structure RawComment where
  id : String
  user : Option String
  body : String
  created_at : String
  updated_at : String
  deriving Repr, DecidableEq

def map_raw_comments (raw : List RawComment) (nid : String) : List Comment :=
  raw.map (fun c =>
    { comment_id := c.id
      notification_id := nid
      author := match c.user with | some u => u | none => "[deleted]"
      body := c.body
      created_at := c.created_at
      updated_at := c.updated_at })

/-- Embeds `db.upsert_comments`: per comment, insert keyed by `comment_id`;
`ON CONFLICT(comment_id) DO UPDATE SET body = excluded.body,
updated_at = excluded.updated_at` (never touching `created_at`). -/
def upsert_comments (cs : List Comment) (incoming : List Comment) :
    List Comment :=
  incoming.foldl
    (fun acc c =>
      if acc.any (fun o => o.comment_id = c.comment_id) then
        acc.map (fun o =>
          if o.comment_id = c.comment_id then
            { o with body := c.body, updated_at := c.updated_at }
          else o)
      else acc ++ [c])
    cs

/-- Embeds `priority.compute_priority`: the six-rule decision table, evaluated
top-to-bottom, first match wins. -/
def compute_priority (reason : String) (ci_status : Option String)
    (is_own_pr : Bool) : Int × String :=
  if reason = "review_requested" then
    if ci_status = some "success" then (1000, "blocking")
    else (800, "blocking")
  else if reason = "mention" ∨ reason = "assign" then (600, "action")
  else if is_own_pr ∧ ci_status = some "failure" then (500, "action")
  else if reason = "team_mention" then (200, "fyi")
  else (100, "fyi")

/-- The spec's decision table for the priority engine, transcribed verbatim
from the specification's §4.2 wording (first match wins), to be compared
with the implementation `compute_priority`. -/
def priorityDecisionTableSpec (reason : String) (ci_status : Option String)
    (is_own_pr : Bool) : Int × String :=
  if reason = "review_requested" ∧ ci_status = some "success" then
    (1000, "blocking")
  else if reason = "review_requested" then (800, "blocking")
  else if reason = "mention" ∨ reason = "assign" then (600, "action")
  else if is_own_pr = true ∧ ci_status = some "failure" then (500, "action")
  else if reason = "team_mention" then (200, "fyi")
  else (100, "fyi")

/-- C6: the priority function implements the spec's six-rule first-match
decision table, and the scores of the table's representative inputs are
strictly ordered 1000 > 800 > 600 > 200 > 100. -/
theorem compute_priority_matches_table :
    (∀ reason ci own,
      compute_priority reason ci own = priorityDecisionTableSpec reason ci own)
    ∧ (compute_priority "review_requested" (some "success") false).1 >
        (compute_priority "review_requested" (some "failure") false).1
    ∧ (compute_priority "review_requested" (some "failure") false).1 >
        (compute_priority "mention" none false).1
    ∧ (compute_priority "mention" none false).1 >
        (compute_priority "team_mention" none false).1
    ∧ (compute_priority "team_mention" none false).1 = 200
    ∧ (compute_priority "team_mention" none false).1 >
        (compute_priority "subscribed" none false).1
    ∧ (compute_priority "subscribed" none false).1 = 100 := by
  refine ⟨?_, by decide, by decide, by decide, by decide, by decide, by decide⟩
  intro reason ci own
  unfold compute_priority priorityDecisionTableSpec
  by_cases h1 : reason = "review_requested" <;> simp [h1]

/-! ## Helper lemmas: queries after row-wise UPDATE statements -/

/-- Helper: `find?` commutes with a map that does not change whether the predicate
holds. -/
theorem find?_map_pred {α : Type} (l : List α) (g : α → α) (p : α → Bool)
    (hp : ∀ a, p (g a) = p a) :
    (l.map g).find? p = (l.find? p).map g := by
  induction l with
  | nil => rfl
  | cons a t ih =>
    by_cases h : p a = true
    · rw [List.map_cons, List.find?_cons_of_pos _ ((hp a).trans h),
        List.find?_cons_of_pos _ h]
      simp
    · have hga : ¬ p (g a) = true := by rw [hp]; exact h
      rw [List.map_cons, List.find?_cons_of_neg _ hga,
        List.find?_cons_of_neg _ h, ih]

/-- On the update path, `upsert_notification` rewrites the stored row to the
incoming one except that `comments_loaded` is recomputed from the
`updated_at` comparison and `last_viewed_at` keeps its stored value. -/
theorem upsert_update_row (db : List Notification) (row old : Notification)
    (h : get_notification db row.notification_id = some old) :
    get_notification (upsert_notification db row) row.notification_id =
      some { row with
        comments_loaded :=
          if old.updated_at ≠ row.updated_at then 0 else row.comments_loaded
        last_viewed_at := old.last_viewed_at } := by
  have hold : old.notification_id = row.notification_id := by
    have := List.find?_some h
    simpa using this
  unfold upsert_notification
  rw [h]
  unfold get_notification at h ⊢
  rw [find?_map_pred]
  · rw [h]
    simp [hold]
  · intro a
    by_cases ha : a.notification_id = row.notification_id <;> simp [ha]

/-- After `update_last_viewed`, a found row carries the new timestamp. -/
theorem update_last_viewed_row (db : List Notification) (nid : String)
    (old : Notification) (now : String)
    (h : get_notification db nid = some old) :
    get_notification (update_last_viewed db nid now) nid =
      some { old with last_viewed_at := some now } := by
  have hold : old.notification_id = nid := by
    have := List.find?_some h
    simpa using this
  unfold update_last_viewed
  unfold get_notification at h ⊢
  rw [find?_map_pred]
  · rw [h]
    simp [hold]
  · intro a
    by_cases ha : a.notification_id = nid <;> simp [ha]

/-! ## Sample rows for concrete runs -/

def sampleRaw : RawNotif :=
  { id := "1001"
    repoOwner := "NixOS"
    repoName := "nixpkgs"
    subjectType := "PullRequest"
    subjectTitle := "python313: 3.13.1 -> 3.13.2"
    subjectUrl := some "https://api.github.com/repos/NixOS/nixpkgs/pulls/12345"
    reason := "review_requested"
    updated_at := "2026-02-09T07:00:00Z"
    unread := true }

def sampleNotif : Notification :=
  { notification_id := "1001"
    repo_owner := "NixOS"
    repo_name := "nixpkgs"
    subject_type := "PullRequest"
    subject_title := "python313: 3.13.1 -> 3.13.2"
    subject_url := some "https://api.github.com/repos/NixOS/nixpkgs/pulls/12345"
    html_url := some "https://github.com/NixOS/nixpkgs/pull/12345"
    reason := "review_requested"
    updated_at := "2026-02-09T07:00:00Z"
    unread := 1
    priority_score := 0
    priority_tier := "fyi"
    raw_json := sampleRaw
    comments_loaded := 0
    last_viewed_at := none
    ci_status := none
    subject_state := none }

/-! ## C1 — `comments_loaded` across upsert -/

/-- The claim as stated: on update, `comments_loaded` becomes false iff
`updated_at` changed, and with an unchanged `updated_at` the *stored* value
is preserved regardless of the caller-supplied one. -/
def upsertPreservesStoredCommentsLoaded : Prop :=
  ∀ (db : List Notification) (row old : Notification),
    get_notification db row.notification_id = some old →
    (old.updated_at ≠ row.updated_at →
      (get_notification (upsert_notification db row)
        row.notification_id).map Notification.comments_loaded = some 0)
    ∧ (old.updated_at = row.updated_at →
      (get_notification (upsert_notification db row)
        row.notification_id).map Notification.comments_loaded =
          some old.comments_loaded)

/-- C1 counterexample: with the stored row having `comments_loaded = 1` and
an incoming row carrying the same `updated_at` but `comments_loaded = 0`,
the update stores the caller-supplied `0`, not the stored `1`. -/
theorem upsert_comments_loaded_claim_false :
    ¬ upsertPreservesStoredCommentsLoaded := by
  intro h
  have h2 :=
    (h [{ sampleNotif with comments_loaded := 1 }] sampleNotif
      { sampleNotif with comments_loaded := 1 } (by decide)).2 rfl
  revert h2
  decide

/-- C1 (amended): on update, a changed `updated_at` stores
`comments_loaded = 0` regardless of the caller-supplied value, and an
unchanged `updated_at` stores the caller-supplied value (so re-upserting a
row carrying the stored value preserves it). -/
theorem upsert_comments_loaded_update (db : List Notification)
    (row old : Notification)
    (h : get_notification db row.notification_id = some old) :
    (old.updated_at ≠ row.updated_at →
      (get_notification (upsert_notification db row)
        row.notification_id).map Notification.comments_loaded = some 0)
    ∧ (old.updated_at = row.updated_at →
      (get_notification (upsert_notification db row)
        row.notification_id).map Notification.comments_loaded =
          some row.comments_loaded) := by
  have hrow := upsert_update_row db row old h
  constructor <;> intro hc <;> simp [hrow, hc]

/-- C1 witness: both branches at concrete rows. -/
theorem upsert_comments_loaded_update_witness :
    (get_notification
        (upsert_notification [sampleNotif]
          { sampleNotif with updated_at := "2026-02-10T08:00:00Z"
                             comments_loaded := 1 })
        "1001").map Notification.comments_loaded = some 0
    ∧ (get_notification
        (upsert_notification [{ sampleNotif with comments_loaded := 1 }]
          { sampleNotif with comments_loaded := 1 })
        "1001").map Notification.comments_loaded = some 1 := by
  constructor
  · exact (upsert_comments_loaded_update [sampleNotif]
      { sampleNotif with updated_at := "2026-02-10T08:00:00Z"
                         comments_loaded := 1 }
      sampleNotif (by decide)).1 (by decide)
  · exact (upsert_comments_loaded_update
      [{ sampleNotif with comments_loaded := 1 }]
      { sampleNotif with comments_loaded := 1 }
      { sampleNotif with comments_loaded := 1 } (by decide)).2 rfl

/-! ## C10 — `last_viewed_at` is untouched by the upsert UPDATE -/

/-- C10: on the update path `upsert_notification` leaves `last_viewed_at`
at its stored value no matter what the caller-supplied row carries, while
`update_last_viewed` is the operation that rewrites it. -/
theorem upsert_update_preserves_last_viewed (db : List Notification)
    (row old : Notification)
    (h : get_notification db row.notification_id = some old) :
    ((get_notification (upsert_notification db row)
        row.notification_id).map Notification.last_viewed_at =
      some old.last_viewed_at)
    ∧ ∀ now,
      (get_notification (update_last_viewed db row.notification_id now)
        row.notification_id).map Notification.last_viewed_at =
        some (some now) := by
  constructor
  · simp [upsert_update_row db row old h]
  · intro now
    simp [update_last_viewed_row db row.notification_id old now h]

/-- C10 witness: a caller-supplied row with a different `last_viewed_at`
does not overwrite the stored value, and `update_last_viewed` does. -/
theorem upsert_update_preserves_last_viewed_witness :
    ((get_notification
        (upsert_notification
          [{ sampleNotif with last_viewed_at := some "2026-02-09T10:00:00Z" }]
          { sampleNotif with last_viewed_at := none
                             updated_at := "2026-02-10T08:00:00Z" })
        "1001").map Notification.last_viewed_at =
      some (some "2026-02-09T10:00:00Z"))
    ∧ (get_notification
        (update_last_viewed
          [{ sampleNotif with last_viewed_at := some "2026-02-09T10:00:00Z" }]
          "1001" "2026-02-11T00:00:00Z")
        "1001").map Notification.last_viewed_at =
      some (some "2026-02-11T00:00:00Z") := by
  have h := upsert_update_preserves_last_viewed
    [{ sampleNotif with last_viewed_at := some "2026-02-09T10:00:00Z" }]
    { sampleNotif with last_viewed_at := none
                       updated_at := "2026-02-10T08:00:00Z" }
    { sampleNotif with last_viewed_at := some "2026-02-09T10:00:00Z" }
    (by decide)
  exact ⟨h.1, h.2 "2026-02-11T00:00:00Z"⟩

/-! ## C4 — exact purge semantics of `purge_stale_notifications` -/

/-- Filtering a list by a predicate and by its negation partitions it. -/
theorem length_filter_prop_add {α : Type} (l : List α) (q : α → Prop)
    [DecidablePred q] :
    (l.filter (fun a => q a)).length +
      (l.filter (fun a => ¬ q a)).length = l.length := by
  have h := List.length_eq_length_filter_add (l := l) (fun a => decide (q a))
  simpa [decide_not] using h.symm

/-- C4: `purge_stale_notifications keep T` keeps exactly the rows that are
in the keep set or strictly newer than the cutoff (so every kept-id row
remains and every row with `updated_at > T` remains), and the returned
count is the number of rows removed. -/
theorem purge_stale_notifications_spec (db : List Notification)
    (keep : List String) (T : String) :
    (∀ r, r ∈ (purge_stale_notifications db keep T).1 ↔
      (r ∈ db ∧ (r.notification_id ∈ keep ∨ T < r.updated_at)))
    ∧ (purge_stale_notifications db keep T).2 +
        (purge_stale_notifications db keep T).1.length = db.length := by
  constructor
  · intro r
    simp only [purge_stale_notifications, List.mem_filter, decide_eq_true_eq]
    constructor
    · rintro ⟨hm, hp⟩
      refine ⟨hm, ?_⟩
      by_cases hk : r.notification_id ∈ keep
      · exact Or.inl hk
      · exact Or.inr (lt_of_not_le (fun hle => hp ⟨hk, hle⟩))
    · rintro ⟨hm, hp⟩
      refine ⟨hm, ?_⟩
      rintro ⟨hk, hle⟩
      rcases hp with hp | hp
      · exact hk hp
      · exact absurd hle (not_le_of_lt hp)
  · exact length_filter_prop_add db
      (fun n => n.notification_id ∉ keep ∧ n.updated_at ≤ T)

/-! ## C5 — `sync._purge_stale` on an empty remote fetch -/

/-- Embeds `sync.PURGE_ALL_THRESHOLD`: below or at this local row count an empty
API response purges all local notifications; above it the empty response is
assumed to be a transient API issue. -/
def PURGE_ALL_THRESHOLD : Nat := 5

/-- Embeds `sync._purge_stale`: returns the surviving table, the purged row count,
and whether the skip warning was logged.  An empty fetch purges everything
only when the cache holds at most `PURGE_ALL_THRESHOLD` rows; a non-empty
fetch delegates to `purge_stale_notifications` with the fetched id set and
the oldest fetched `updated_at` (Python `min`). -/
def sync_purge_stale (db : List Notification) (fetched : List RawNotif) :
    List Notification × Nat × Bool :=
  match fetched with
  | [] =>
    let count := get_notification_count db
    if 0 < count then
      if count ≤ PURGE_ALL_THRESHOLD then
        (purge_all_notifications db, count, false)
      else (db, 0, true)
    else (db, 0, false)
  | f :: fs =>
    let fetched_ids := (f :: fs).map RawNotif.id
    let oldest := fs.foldl (fun a n => min a n.updated_at) f.updated_at
    let res := purge_stale_notifications db fetched_ids oldest
    (res.1, res.2, false)

/-- C5: an empty remote fetch purges the whole cache exactly when the local
row count is at or below the safety threshold; above the threshold nothing
is purged, the warning is emitted, and the table is left untouched. -/
theorem sync_purge_stale_empty_fetch (db : List Notification) :
    (db.length ≤ PURGE_ALL_THRESHOLD →
      sync_purge_stale db [] = ([], db.length, false))
    ∧ (PURGE_ALL_THRESHOLD < db.length →
      sync_purge_stale db [] = (db, 0, true)) := by
  constructor
  · intro hle
    by_cases h0 : 0 < db.length
    · simp [sync_purge_stale, get_notification_count, purge_all_notifications,
        h0, hle]
    · have : db = [] := List.length_eq_zero.mp (by omega)
      subst this
      rfl
  · intro hgt
    have h0 : 0 < db.length := by
      have : PURGE_ALL_THRESHOLD = 5 := rfl
      omega
    simp [sync_purge_stale, get_notification_count, h0, Nat.not_le.mpr hgt]

/-- A 50-row cache for the above-threshold scenario. -/
def bigCache : List Notification :=
  (List.range 50).map
    (fun i => { sampleNotif with notification_id := toString i })

/-- C5 witness: 2 cached rows are both purged (total 0); 50 cached rows are
left untouched with zero purged and the warning emitted. -/
theorem sync_purge_stale_empty_fetch_witness :
    sync_purge_stale
        [sampleNotif, { sampleNotif with notification_id := "1002" }] [] =
      ([], 2, false)
    ∧ sync_purge_stale bigCache [] = (bigCache, 0, true) := by
  constructor
  · exact (sync_purge_stale_empty_fetch
      [sampleNotif, { sampleNotif with notification_id := "1002" }]).1
      (by decide)
  · exact (sync_purge_stale_empty_fetch bigCache).2 (by decide)

/-! ## C2 — `github.fetch_notifications` pagination -/

/-- Embeds `github.fetch_notifications` over an abstract paginated remote, the
remote being the list of its pages (page `i` carries a `Link: rel="next"`
header exactly when a page `i+1` exists).  The source loop issues the first
request and then follows every next link, extending the accumulator; the
function has no `max_results` parameter and no stop condition other than
the absence of a next link.  Returns the accumulated items and the number
of pages requested. -/
def fetch_notifications : List (List RawNotif) → List RawNotif × Nat
  | [] => ([], 0)
  | p :: rest =>
    let r := fetch_notifications rest
    (p ++ r.1, r.2 + 1)

/-- C2: `fetch_notifications` requests every linked page and accumulates
every item regardless of any cap; in particular, on a remote with two
one-item pages followed by a linked third page, the third page is
requested (3 pages > the 2 that `max_notifications = 2` allows) and all
three items are returned. -/
theorem fetch_notifications_ignores_max :
    (∀ pages, (fetch_notifications pages).2 = pages.length)
    ∧ fetch_notifications
        [[{ sampleRaw with id := "6001" }],
         [{ sampleRaw with id := "6002" }],
         [{ sampleRaw with id := "6003" }]] =
      ([{ sampleRaw with id := "6001" }, { sampleRaw with id := "6002" },
        { sampleRaw with id := "6003" }], 3)
    ∧ 2 < (fetch_notifications
        [[{ sampleRaw with id := "6001" }],
         [{ sampleRaw with id := "6002" }],
         [{ sampleRaw with id := "6003" }]]).2 := by
  refine ⟨?_, rfl, by decide⟩
  intro pages
  induction pages with
  | nil => rfl
  | cons p rest ih => simp [fetch_notifications, ih]

/-! ## The sync pipeline (`forge_triage.sync`) -/

/-- Substring occurrence over character lists (structural, so concrete
instances evaluate in the kernel). -/
def contains_sub_list (pat : List Char) : List Char → Bool
  | [] => pat.isEmpty
  | h :: t => pat.isPrefixOf (h :: t) || contains_sub_list pat t

/-- Python's `"pat" in s` substring test. -/
def str_contains (s pat : String) : Bool :=
  contains_sub_list pat.data s.data

/-- Fuel-driven body of Python's `str.replace` (all non-overlapping
occurrences, left to right, for a non-empty pattern — the only way the code
uses it); the fuel is the haystack length, enough since every step consumes
at least one character. -/
def replace_fuel (pat rep : List Char) : Nat → List Char → List Char
  | 0, s => s
  | _, [] => []
  | fuel + 1, h :: t =>
    if pat ≠ [] ∧ pat.isPrefixOf (h :: t) then
      rep ++ replace_fuel pat rep fuel ((h :: t).drop pat.length)
    else h :: replace_fuel pat rep fuel t

/-- Python's `s.replace(pat, rep)`. -/
def py_replace (s pat rep : String) : String :=
  String.mk (replace_fuel pat.data rep.data s.data.length s.data)

/-- Splitting a character list on a single separator character (Python's
`s.split(sep)` / `str.splitOn` for the one-character separators the code
uses). -/
def split_on_char (c : Char) : List Char → List (List Char)
  | [] => [[]]
  | h :: t =>
    let r := split_on_char c t
    if h = c then [] :: r
    else
      match r with
      | [] => [[h]]
      | x :: xs => (h :: x) :: xs

/-- Digits to a natural number (Python's `int(...)` on a digit string). -/
def digits_to_nat (l : List Char) : Nat :=
  l.foldl (fun a c => a * 10 + (c.toNat - 48)) 0

/-- Embeds `sync._subject_html_url`: derive a browser URL from a notification's
subject (Release tag rewrite, CheckSuite/None fallbacks, api→html
rewrite). -/
def subject_html_url (n : RawNotif) : String :=
  match n.subjectUrl with
  | some url =>
    if n.subjectType = "Release" then
      "https://github.com/" ++ n.repoOwner ++ "/" ++ n.repoName ++
        "/releases/tag/" ++ n.subjectTitle
    else
      py_replace (py_replace url "api.github.com/repos" "github.com")
        "/pulls/" "/pull/"
  | none =>
    if n.subjectType = "CheckSuite" then
      "https://github.com/" ++ n.repoOwner ++ "/" ++ n.repoName ++ "/actions"
    else "https://github.com/" ++ n.repoOwner ++ "/" ++ n.repoName

/-- Embeds `sync._notification_to_row`. -/
def notification_to_row (n : RawNotif) (ci_status : Option String)
    (subject_state : Option String) (priority_score : Int)
    (priority_tier : String) : Notification :=
  { notification_id := n.id
    repo_owner := n.repoOwner
    repo_name := n.repoName
    subject_type := n.subjectType
    subject_title := n.subjectTitle
    subject_url := n.subjectUrl
    html_url := some (subject_html_url n)
    reason := n.reason
    updated_at := n.updated_at
    unread := if n.unread then 1 else 0
    priority_score := priority_score
    priority_tier := priority_tier
    raw_json := n
    comments_loaded := 0
    last_viewed_at := none
    ci_status := ci_status
    subject_state := subject_state }

/-- Embeds `sync._comments_url_from_notification`: PR/Issue API URL → comments
URL; `None` and unrecognised URLs give `None`. -/
def comments_url_from_notification (n : RawNotif) : Option String :=
  match n.subjectUrl with
  | none => none
  | some url =>
    if str_contains url "/pulls/" then
      some ((py_replace url "/pulls/" "/issues/") ++ "/comments")
    else if str_contains url "/issues/" then some (url ++ "/comments")
    else none

/-- The persistent cache: the `notifications` and `comments` tables plus
the `sync_metadata` key/value table. -/
structure SyncState where
  notifs : List Notification
  comments : List Comment
  sync_metadata : List (String × String)
  deriving Repr, DecidableEq

/-- Embeds `sync.SyncResult`. -/
structure SyncResult where
  new : Nat
  updated : Nat
  purged : Nat
  total : Nat
  deriving Repr, DecidableEq

def COMMENT_PRELOAD_COUNT : Nat := 20

/-- Embeds `db.get_top_notifications_for_preload`: `ORDER BY priority_score DESC
LIMIT ?` (stable sort as determinisation of SQLite's unspecified tie
order). -/
def get_top_notifications_for_preload (db : List Notification)
    (limit : Nat) : List Notification :=
  (db.mergeSort (fun a b => b.priority_score ≤ a.priority_score)).take limit

/-- One `_load_one` task of `sync._preload_comments_for_top_n`: resolve the
comments URL from the raw payload, fetch, upsert, mark loaded; any failure
is caught and logged, leaving the cache unchanged. -/
def preload_one (oracle : String → Except String (List RawComment))
    (s : SyncState) (r : Notification) : SyncState :=
  match comments_url_from_notification r.raw_json with
  | none => s
  | some url =>
    match oracle url with
    | .error _ => s
    | .ok raws =>
      let cs := map_raw_comments raws r.notification_id
      { s with
        comments := upsert_comments s.comments cs
        notifs := mark_comments_loaded s.notifs r.notification_id }

/-- Embeds `sync._preload_comments_for_top_n`: fan the per-notification load over
the top-N rows that do not yet have `comments_loaded` (the semaphore-bound
`asyncio.gather` is determinised as sequential iteration; the tasks write
disjoint rows). -/
def preload_comments_for_top_n (st : SyncState)
    (oracle : String → Except String (List RawComment)) : SyncState :=
  let rows := get_top_notifications_for_preload st.notifs
    COMMENT_PRELOAD_COUNT
  (rows.filter (fun r => r.comments_loaded = 0)).foldl (preload_one oracle) st

/-- Embeds `sync.sync`.  Its first statement (sync.py line 203) is
`await fetch_notifications(token, max_results=max_notifications)`, but
`github.fetch_notifications`'s signature is `(token, since=None)`: the
call itself raises the `TypeError` below on every run, before any page is
requested or any listing result exists, so nothing further runs and the
cache and the sync-metadata store are left untouched.  The remote's
would-be pages are the `remote` input (the same shape
`fetch_notifications` consumes). -/
def sync (_remote : List (List RawNotif)) (st : SyncState) :
    Except String SyncResult × SyncState :=
  (.error
    "fetch_notifications() got an unexpected keyword argument 'max_results'",
    st)

/-- Embeds the remainder of `sync.sync`'s body (sync.py lines 205-245,
the code below the fetch call), unreachable in the program as written and
modelled separately so its effects can be stated.  Were it entered with a
listing result `raw`: the zero-item path runs `_purge_stale`, pre-loads
comments and returns the counts; a non-empty listing raises `TypeError` at
the first loop iteration's `compute_priority(notif["reason"],
ci_status)` — sync.py line 221 omits the required keyword-only `is_own_pr`
parameter — before any row is written.  No statement in it writes
`sync_metadata`. -/
def sync_rest (raw : List RawNotif)
    (_subject_details : String → Option (Option String × Option String))
    (oracle : String → Except String (List RawComment))
    (st : SyncState) : Except String SyncResult × SyncState :=
  match raw with
  | [] =>
    let pr := sync_purge_stale st.notifs []
    let st1 := { st with notifs := pr.1 }
    let st2 := preload_comments_for_top_n st1 oracle
    (.ok { new := 0, updated := 0, purged := pr.2.1
           total := get_notification_count st2.notifs }, st2)
  | _ :: _ =>
    (.error
      "compute_priority() missing 1 required keyword-only argument: 'is_own_pr'",
      st)

/-! ## C3 — the incremental-sync cursor -/

/-- Helper: `preload_one` never touches `sync_metadata`. -/
theorem preload_one_meta (oracle : String → Except String (List RawComment))
    (s : SyncState) (r : Notification) :
    (preload_one oracle s r).sync_metadata = s.sync_metadata := by
  unfold preload_one
  split
  · rfl
  · split <;> rfl

/-- Folding the pre-load step over any row list never touches
`sync_metadata`. -/
theorem foldl_preload_one_meta
    (oracle : String → Except String (List RawComment))
    (l : List Notification) :
    ∀ s : SyncState,
      (l.foldl (preload_one oracle) s).sync_metadata = s.sync_metadata := by
  induction l with
  | nil => intro s; rfl
  | cons r rest ih =>
    intro s
    rw [List.foldl_cons, ih, preload_one_meta]

/-- The comment pre-load pass never touches `sync_metadata`. -/
theorem preload_meta (st : SyncState)
    (oracle : String → Except String (List RawComment)) :
    (preload_comments_for_top_n st oracle).sync_metadata =
      st.sync_metadata :=
  foldl_preload_one_meta oracle _ st

/-- Lexicographic codepoint comparison on character lists (the order
Python compares strings by). -/
def chars_lt : List Char → List Char → Bool
  | _, [] => false
  | [], _ :: _ => true
  | a :: as, b :: bs =>
    if a.toNat < b.toNat then true
    else if b.toNat < a.toNat then false
    else chars_lt as bs

/-- Python `max` over a list of strings (lexicographic order), folded from
the empty string — the bottom of that order — so on a non-empty list it is
the maximum element. -/
def py_max_str (l : List String) : String :=
  l.foldl (fun acc x => if chars_lt acc.data x.data then x else acc) ""

/-- The claim as stated: a sync run against a remote whose listing holds
at least one item ends with the maximum observed `updated_at` as some
key's value in the sync-metadata store, and a run against an empty
listing leaves the store unchanged (the items a remote's listing
yields are `(fetch_notifications remote).1`). -/
def syncPersistsCursor : Prop :=
  ∀ (remote : List (List RawNotif)) (st : SyncState),
    ((fetch_notifications remote).1 ≠ [] →
      ∃ key, ((sync remote st).2.sync_metadata).lookup key =
        some (py_max_str ((fetch_notifications remote).1.map
          RawNotif.updated_at)))
    ∧ ((fetch_notifications remote).1 = [] →
      (sync remote st).2.sync_metadata = st.sync_metadata)

/-- C3 counterexample: against a remote holding one item, the run leaves
the sync-metadata store exactly as it was (only `schema_version`), so no
key holds the item's `updated_at` — the run aborts at the fetch call
itself (`max_results=` is not a parameter of
`github.fetch_notifications`) and no code in sync.py writes a cursor. -/
theorem sync_cursor_claim_false : ¬ syncPersistsCursor := by
  intro h
  obtain ⟨key, hk⟩ :=
    (h [[sampleRaw]]
      ⟨[], [], [("schema_version", "2")]⟩).1 (by decide)
  have hmeta :
      (sync [[sampleRaw]]
        ⟨[], [], [("schema_version", "2")]⟩).2.sync_metadata =
      [("schema_version", "2")] := rfl
  rw [hmeta] at hk
  by_cases hkey : key = "schema_version"
  · subst hkey
    simp [List.lookup] at hk
    exact absurd hk (by decide)
  · have hb : (key == "schema_version") = false :=
      beq_eq_false_iff_ne.mpr hkey
    simp [List.lookup, hb] at hk

/-- C3 (amended): sync never persists an incremental-sync cursor and
leaves the sync-metadata store unchanged on every run: each run aborts at
the fetch call itself with a `TypeError` (its `max_results=` keyword is
not in `github.fetch_notifications`'s signature), touching nothing at
all; and independently no statement in the remainder of sync's body
writes the store, so even were that code reachable no cursor would be
persisted. -/
theorem sync_sync_metadata_unchanged :
    (∀ (remote : List (List RawNotif)) (st : SyncState),
      sync remote st =
        (.error
          "fetch_notifications() got an unexpected keyword argument 'max_results'",
          st))
    ∧ ∀ (raw : List RawNotif)
        (d : String → Option (Option String × Option String))
        (o : String → Except String (List RawComment)) (st : SyncState),
        (sync_rest raw d o st).2.sync_metadata = st.sync_metadata := by
  constructor
  · intro remote st
    rfl
  · intro raw d o st
    cases raw with
    | nil =>
      show (preload_comments_for_top_n _ o).sync_metadata = st.sync_metadata
      rw [preload_meta]
    | cons a t => rfl

/-- C3 amended-theorem witness: a concrete run against a one-item remote
aborts at the fetch with the keyword `TypeError` and leaves the whole
state (metadata included) untouched, and a concrete zero-item run of the
unreachable remainder also leaves the metadata store untouched. -/
theorem sync_sync_metadata_unchanged_witness :
    sync [[sampleRaw]] ⟨[sampleNotif], [], [("schema_version", "2")]⟩ =
      (.error
        "fetch_notifications() got an unexpected keyword argument 'max_results'",
        ⟨[sampleNotif], [], [("schema_version", "2")]⟩)
    ∧ (sync_rest [] (fun _ => none) (fun _ => .error "")
      ⟨[sampleNotif], [], [("schema_version", "2")]⟩).2.sync_metadata =
      [("schema_version", "2")] :=
  ⟨sync_sync_metadata_unchanged.1 [[sampleRaw]]
    ⟨[sampleNotif], [], [("schema_version", "2")]⟩,
   sync_sync_metadata_unchanged.2 [] (fun _ => none) (fun _ => .error "")
    ⟨[sampleNotif], [], [("schema_version", "2")]⟩⟩

/-! ## The message protocol (`forge_triage.messages`) -/

/-- The closed set of request variants (TUI → backend). -/
inductive Request where
  | markDone (notification_ids : List String)
  | fetchComments (notification_id : String)
  | preLoadComments (top_n : Nat)
  | fetchPRDetail (notification_id : String)
  | postReviewComment (notification_id : String) (comment_id : Nat)
      (body : String)
  | submitReview (notification_id : String) (event : String) (body : String)
  | resolveThread (notification_id : String) (thread_node_id : String)
      (resolve : Bool)
  deriving Repr, DecidableEq

/-- The closed set of response variants (backend → TUI). -/
inductive Response where
  | markDoneResult (notification_ids : List String) (errors : List String)
  | fetchCommentsResult (notification_id : String) (comment_count : Nat)
  | preLoadComplete (loaded_ids : List String)
  | errorResult (request_type : String) (error : String)
  | fetchPRDetailResult (notification_id : String) (success : Bool)
      (error : String)
  | postReviewCommentResult (notification_id : String) (success : Bool)
      (error : String)
  | submitReviewResult (notification_id : String) (success : Bool)
      (error : String)
  | resolveThreadResult (notification_id : String) (success : Bool)
      (error : String)
  deriving Repr, DecidableEq

/-- Embeds `type(req).__name__`, as used by the worker's error responses. -/
def variant_name : Request → String
  | .markDone _ => "MarkDoneRequest"
  | .fetchComments _ => "FetchCommentsRequest"
  | .preLoadComments _ => "PreLoadCommentsRequest"
  | .fetchPRDetail _ => "FetchPRDetailRequest"
  | .postReviewComment _ _ _ => "PostReviewCommentRequest"
  | .submitReview _ _ _ => "SubmitReviewRequest"
  | .resolveThread _ _ _ => "ResolveThreadRequest"

/-! ## PR-detail tables (`forge_triage.pr_db`) and subject-URL parsing -/

/-- Embeds `github.ParsedSubject`. -/
structure ParsedSubject where
  owner : String
  repo : String
  number : Nat
  kind : String
  deriving Repr, DecidableEq

/-- Embeds `github_pr.PRRef`. -/
structure PRRef where
  owner : String
  repo : String
  number : Nat
  deriving Repr, DecidableEq

/-- Embeds `github.parse_subject_url`: match
`https://api.github.com/repos/<owner>/<repo>/(pulls|issues)/<digits>`
anchored on both ends, `owner`/`repo` non-empty and slash-free; `None` and
non-matching URLs give `None`. -/
def parse_subject_url (url : Option String) : Option ParsedSubject :=
  match url with
  | none => none
  | some s =>
    if "https://api.github.com/repos/".data.isPrefixOf s.data then
      match (split_on_char (Char.ofNat 47)
          (s.data.drop "https://api.github.com/repos/".data.length)).map
          String.mk with
      | [owner, repo, kind, number] =>
        if owner ≠ "" ∧ repo ≠ "" ∧ (kind = "pulls" ∨ kind = "issues") ∧
            number ≠ "" ∧ number.data.all Char.isDigit then
          some { owner := owner, repo := repo
                 number := digits_to_nat number.data
                 kind := if kind = "pulls" then "pull_request" else "issue" }
        else none
      | _ => none
    else none

/-- The flat dict `github_pr.parse_pr_metadata_response` hands to
`pr_db.upsert_pr_details`. -/
structure PRMetadata where
  pr_number : Nat
  author : String
  body : Option String
  labels_json : String
  base_ref : Option String
  head_ref : Option String
  deriving Repr, DecidableEq

/-- A `pr_details` row (`pr_db.PRDetails`). -/
structure PRDetailsRow where
  notification_id : String
  pr_number : Nat
  author : String
  body : Option String
  labels_json : String
  base_ref : Option String
  head_ref : Option String
  loaded_at : String
  deriving Repr, DecidableEq

/-- A review dict from `github_pr.parse_review_threads_response`. -/
structure PRReviewRaw where
  review_id : String
  author : String
  state : String
  body : String
  submitted_at : String
  deriving Repr, DecidableEq

/-- A `pr_reviews` row. -/
structure PRReviewRow where
  review_id : String
  notification_id : String
  author : String
  state : String
  body : String
  submitted_at : String
  deriving Repr, DecidableEq

/-- A flattened review-thread comment dict from
`github_pr.parse_review_threads_response`; `side` / `in_reply_to_id` model
dict keys that may be absent (filled in by the backend's `setdefault`). -/
structure ReviewCommentRaw where
  comment_id : String
  thread_id : String
  author : String
  body : String
  path : Option String
  diff_hunk : Option String
  line : Option Nat
  side : Option String
  in_reply_to_id : Option String
  is_resolved : Nat
  created_at : String
  updated_at : String
  deriving Repr, DecidableEq

/-- A `review_comments` row (`pr_db.ReviewComment`). -/
structure ReviewCommentRow where
  comment_id : String
  review_id : Option String
  notification_id : String
  thread_id : String
  author : String
  body : String
  path : Option String
  diff_hunk : Option String
  line : Option Nat
  side : Option String
  in_reply_to_id : Option String
  is_resolved : Nat
  created_at : String
  updated_at : String
  deriving Repr, DecidableEq

/-- A changed-file dict from `github_pr.fetch_pr_files`. -/
structure PRFileRaw where
  filename : String
  status : String
  additions : Nat
  deletions : Nat
  patch : Option String
  deriving Repr, DecidableEq

/-- A `pr_files` row (without the autoincrement `file_id`). -/
structure PRFileRow where
  notification_id : String
  filename : String
  status : String
  additions : Nat
  deletions : Nat
  patch : Option String
  deriving Repr, DecidableEq

/-- Embeds `pr_db.upsert_pr_details`: keyed by `notification_id`; on conflict all
metadata fields and `loaded_at` are rewritten. -/
def upsert_pr_details (l : List PRDetailsRow) (row : PRDetailsRow) :
    List PRDetailsRow :=
  if l.any (fun o => o.notification_id = row.notification_id) then
    l.map (fun o =>
      if o.notification_id = row.notification_id then row else o)
  else l ++ [row]

/-- Embeds `pr_db.upsert_pr_reviews`: per review, keyed by `review_id`;
`ON CONFLICT DO UPDATE SET state, body`. -/
def upsert_pr_reviews (l : List PRReviewRow) (incoming : List PRReviewRow) :
    List PRReviewRow :=
  incoming.foldl
    (fun acc r =>
      if acc.any (fun o => o.review_id = r.review_id) then
        acc.map (fun o =>
          if o.review_id = r.review_id then
            { o with state := r.state, body := r.body }
          else o)
      else acc ++ [r])
    l

/-- Embeds `pr_db.upsert_review_comments`: per comment, keyed by `comment_id`;
`ON CONFLICT DO UPDATE SET body, is_resolved, updated_at`. -/
def upsert_review_comments (l : List ReviewCommentRow)
    (incoming : List ReviewCommentRow) : List ReviewCommentRow :=
  incoming.foldl
    (fun acc c =>
      if acc.any (fun o => o.comment_id = c.comment_id) then
        acc.map (fun o =>
          if o.comment_id = c.comment_id then
            { o with body := c.body, is_resolved := c.is_resolved
                     updated_at := c.updated_at }
          else o)
      else acc ++ [c])
    l

/-- Embeds `pr_db.upsert_pr_files`: no-op on an empty list; otherwise delete every
file row of the (single) notification and insert the new ones. -/
def upsert_pr_files (l : List PRFileRow) (incoming : List PRFileRow) :
    List PRFileRow :=
  match incoming with
  | [] => l
  | f :: _ =>
    (l.filter (fun o => o.notification_id ≠ f.notification_id)) ++ incoming

/-- The whole persistent cache seen by the backend worker. -/
structure World where
  notifs : List Notification
  comments : List Comment
  pr_details : List PRDetailsRow
  pr_reviews : List PRReviewRow
  review_comments : List ReviewCommentRow
  pr_files : List PRFileRow
  deriving Repr, DecidableEq

/-- Embeds `db.delete_notification` with the spec-declared `ON DELETE CASCADE`
over comments and the PR-detail tables. -/
def world_delete_notification (w : World) (nid : String) : World :=
  { notifs := delete_notification w.notifs nid
    comments := cascade_delete_comments w.comments nid
    pr_details := w.pr_details.filter (fun r => r.notification_id ≠ nid)
    pr_reviews := w.pr_reviews.filter (fun r => r.notification_id ≠ nid)
    review_comments :=
      w.review_comments.filter (fun r => r.notification_id ≠ nid)
    pr_files := w.pr_files.filter (fun r => r.notification_id ≠ nid) }

/-- Embeds `pr_db.delete_pr_data_for_notification`: clear the four PR tables for a
notification, leaving the notification itself. -/
def delete_pr_data_for_notification (w : World) (nid : String) : World :=
  { w with
    pr_details := w.pr_details.filter (fun r => r.notification_id ≠ nid)
    pr_reviews := w.pr_reviews.filter (fun r => r.notification_id ≠ nid)
    review_comments :=
      w.review_comments.filter (fun r => r.notification_id ≠ nid)
    pr_files := w.pr_files.filter (fun r => r.notification_id ≠ nid) }

/-- Embeds `db.get_unloaded_top_notification_ids`: `WHERE comments_loaded = 0
ORDER BY priority_score DESC LIMIT ?`. -/
def get_unloaded_top_notification_ids (db : List Notification)
    (limit : Nat) : List String :=
  (((db.filter (fun n => n.comments_loaded = 0)).mergeSort
      (fun a b => b.priority_score ≤ a.priority_score)).take limit).map
    Notification.notification_id

/-- The remote gateway as seen by the backend handlers (`github.mark_as_read`,
`github.fetch_comments`, and the `github_pr` fetch/mutation clients), plus
the `datetime('now')` clock: oracle functions, an exception being
`Except.error (str e)`. -/
structure Env where
  mark_as_read : String → Except String Unit
  fetch_comments : String → Except String (List RawComment)
  fetch_pr_metadata : PRRef → Except String PRMetadata
  fetch_review_threads :
    PRRef → Except String (List ReviewCommentRaw × List PRReviewRaw)
  fetch_pr_files : PRRef → Except String (List PRFileRaw)
  post_review_reply : PRRef → Nat → String → Except String Unit
  submit_review : PRRef → String → String → Except String Unit
  resolve_review_thread : String → Except String Unit
  unresolve_review_thread : String → Except String Unit
  now : String

/-! ## Backend handlers (`forge_triage.backend`) -/

/-- The loop body of `backend._handle_mark_done`: for each id, call the
remote read-acknowledgement; on success delete the row locally and record
the id, on failure record `f"{nid}: {e}"`; failures never stop the loop. -/
def mark_done_go (env : Env) :
    List String → List String → List String → World →
      List String × List String × World
  | [], done, errs, w => (done, errs, w)
  | nid :: rest, done, errs, w =>
    match env.mark_as_read nid with
    | .ok _ =>
      mark_done_go env rest (done ++ [nid]) errs
        (world_delete_notification w nid)
    | .error e =>
      mark_done_go env rest done (errs ++ [nid ++ ": " ++ e]) w

/-- Embeds `backend._handle_mark_done`. -/
def handle_mark_done (env : Env) (w : World) (ids : List String) :
    Except String Response × World :=
  let r := mark_done_go env ids [] [] w
  (.ok (.markDoneResult r.1 r.2.1), r.2.2)

/-- Embeds `backend._handle_fetch_comments`: an unknown id gives a zero-count
success; a cached raw subject URL of `None` hits `"/pulls/" in
subject_url` and raises `TypeError`; a pull-shaped or issue-shaped URL is
rewritten to its comments endpoint and fetched; any other URL gives a
zero-count success. -/
def handle_fetch_comments (env : Env) (w : World) (nid : String) :
    Except String Response × World :=
  match get_notification w.notifs nid with
  | none => (.ok (.fetchCommentsResult nid 0), w)
  | some row =>
    match row.raw_json.subjectUrl with
    | none => (.error "argument of type 'NoneType' is not iterable", w)
    | some url =>
      let comments_url :=
        if str_contains url "/pulls/" then
          some ((py_replace url "/pulls/" "/issues/") ++ "/comments")
        else if str_contains url "/issues/" then some (url ++ "/comments")
        else none
      match comments_url with
      | none => (.ok (.fetchCommentsResult nid 0), w)
      | some curl =>
        match env.fetch_comments curl with
        | .error e => (.error e, w)
        | .ok raws =>
          let cs := map_raw_comments raws nid
          (.ok (.fetchCommentsResult nid cs.length),
           { w with
             comments := upsert_comments w.comments cs
             notifs := mark_comments_loaded w.notifs nid })

/-- The sequential determinisation of `_handle_preload`'s bounded
`asyncio.gather` fan-out: the first task exception propagates. -/
def preload_go (env : Env) :
    List String → List String → World →
      Except String (List String) × World
  | [], loaded, w => (.ok loaded, w)
  | nid :: rest, loaded, w =>
    match handle_fetch_comments env w nid with
    | (.error e, w1) => (.error e, w1)
    | (.ok r, w1) =>
      let loaded1 :=
        match r with
        | .fetchCommentsResult _ c => if 0 < c then loaded ++ [nid] else loaded
        | _ => loaded
      preload_go env rest loaded1 w1

/-- Embeds `backend._handle_preload`. -/
def handle_preload (env : Env) (w : World) (top_n : Nat) :
    Except String Response × World :=
  match preload_go env (get_unloaded_top_notification_ids w.notifs top_n)
      [] w with
  | (.ok loaded, w1) => (.ok (.preLoadComplete loaded), w1)
  | (.error e, w1) => (.error e, w1)

/-- Embeds `backend._get_pr_ref`. -/
def get_pr_ref (w : World) (nid : String) : Option PRRef :=
  match get_notification w.notifs nid with
  | none => none
  | some n =>
    match parse_subject_url n.subject_url with
    | none => none
    | some p => some { owner := p.owner, repo := p.repo, number := p.number }

/-- Embeds `backend._handle_fetch_pr_detail`: resolve the PR, invalidate the four
PR tables, then fetch and upsert metadata, review threads and files; a
gateway failure propagates (leaving the writes made so far). -/
def handle_fetch_pr_detail (env : Env) (w : World) (nid : String) :
    Except String Response × World :=
  match get_pr_ref w nid with
  | none =>
    (.ok (.fetchPRDetailResult nid false "Cannot resolve PR from notification"),
     w)
  | some pr =>
    let w1 := delete_pr_data_for_notification w nid
    match env.fetch_pr_metadata pr with
    | .error e => (.error e, w1)
    | .ok md =>
      let w2 := { w1 with
        pr_details := upsert_pr_details w1.pr_details
          { notification_id := nid, pr_number := md.pr_number
            author := md.author, body := md.body
            labels_json := md.labels_json, base_ref := md.base_ref
            head_ref := md.head_ref, loaded_at := env.now } }
      match env.fetch_review_threads pr with
      | .error e => (.error e, w2)
      | .ok (cs, rs) =>
        let w3 := { w2 with
          pr_reviews := upsert_pr_reviews w2.pr_reviews
            (rs.map (fun (r : PRReviewRaw) =>
              { review_id := r.review_id, notification_id := nid
                author := r.author, state := r.state, body := r.body
                submitted_at := r.submitted_at })) }
        let w4 := { w3 with
          review_comments := upsert_review_comments w3.review_comments
            (cs.map (fun (c : ReviewCommentRaw) =>
              { comment_id := c.comment_id, review_id := none
                notification_id := nid, thread_id := c.thread_id
                author := c.author, body := c.body, path := c.path
                diff_hunk := c.diff_hunk, line := c.line
                side := some (c.side.getD "RIGHT")
                in_reply_to_id := c.in_reply_to_id
                is_resolved := c.is_resolved, created_at := c.created_at
                updated_at := c.updated_at })) }
        match env.fetch_pr_files pr with
        | .error e => (.error e, w4)
        | .ok fs =>
          (.ok (.fetchPRDetailResult nid true ""),
           { w4 with
             pr_files := upsert_pr_files w4.pr_files
               (fs.map (fun (f : PRFileRaw) =>
                 { notification_id := nid, filename := f.filename
                   status := f.status, additions := f.additions
                   deletions := f.deletions, patch := f.patch })) })

/-- Embeds `backend._handle_post_review_comment`. -/
def handle_post_review_comment (env : Env) (w : World) (nid : String)
    (comment_id : Nat) (body : String) : Except String Response × World :=
  match get_pr_ref w nid with
  | none =>
    (.ok (.postReviewCommentResult nid false
      "Cannot resolve PR from notification"), w)
  | some pr =>
    match env.post_review_reply pr comment_id body with
    | .error e => (.error e, w)
    | .ok _ => (.ok (.postReviewCommentResult nid true ""), w)

/-- Embeds `backend._handle_submit_review`. -/
def handle_submit_review (env : Env) (w : World) (nid : String)
    (event : String) (body : String) : Except String Response × World :=
  match get_pr_ref w nid with
  | none =>
    (.ok (.submitReviewResult nid false "Cannot resolve PR from notification"),
     w)
  | some pr =>
    match env.submit_review pr event body with
    | .error e => (.error e, w)
    | .ok _ => (.ok (.submitReviewResult nid true ""), w)

/-- Embeds `backend._handle_resolve_thread`. -/
def handle_resolve_thread (env : Env) (w : World) (nid : String)
    (thread_node_id : String) (resolve : Bool) :
    Except String Response × World :=
  match (if resolve then env.resolve_review_thread thread_node_id
         else env.unresolve_review_thread thread_node_id) with
  | .error e => (.error e, w)
  | .ok _ => (.ok (.resolveThreadResult nid true ""), w)

/-- The `try`-body of the worker loop: exhaustive dispatch by request
variant (the source's trailing "Unknown request type" arm is unreachable —
the request union is closed). -/
def handle_request (env : Env) (w : World) : Request →
    Except String Response × World
  | .markDone ids => handle_mark_done env w ids
  | .fetchComments nid => handle_fetch_comments env w nid
  | .preLoadComments n => handle_preload env w n
  | .fetchPRDetail nid => handle_fetch_pr_detail env w nid
  | .postReviewComment nid cid body =>
    handle_post_review_comment env w nid cid body
  | .submitReview nid event body => handle_submit_review env w nid event body
  | .resolveThread nid tid r => handle_resolve_thread env w nid tid r

/-- Embeds `backend.backend_worker` over a request sequence: per request, dispatch
inside `try`; a raised exception becomes
`ErrorResult(type(req).__name__, str(e))`; exactly one response is
published per request and the loop continues with the next request. -/
def backend_worker (env : Env) (w : World) :
    List Request → List Response × World
  | [] => ([], w)
  | req :: rest =>
    let r := handle_request env w req
    let resp :=
      match r.1 with
      | .ok x => x
      | .error e => .errorResult (variant_name req) e
    let out := backend_worker env r.2 rest
    (resp :: out.1, out.2)

/-! ## C9 — bulk dismiss -/

/-- The dismiss loop visits every id in order: successes are collected and
their rows deleted, failures are collected as `"{id}: {error}"` strings and
never stop the loop. -/
theorem mark_done_go_spec (env : Env) (ids : List String) :
    ∀ (done errs : List String) (w : World),
      (mark_done_go env ids done errs w).1 =
          done ++ ids.filter (fun i => (env.mark_as_read i).isOk)
        ∧ (mark_done_go env ids done errs w).2.1 =
          errs ++ ids.filterMap (fun i =>
            match env.mark_as_read i with
            | .ok _ => none
            | .error e => some (i ++ ": " ++ e))
        ∧ (mark_done_go env ids done errs w).2.2.notifs =
          w.notifs.filter (fun n =>
            ¬ (n.notification_id ∈ ids ∧
                (env.mark_as_read n.notification_id).isOk)) := by
  induction ids with
  | nil =>
    intro done errs w
    refine ⟨by simp [mark_done_go], by simp [mark_done_go], ?_⟩
    simp [mark_done_go]
  | cons nid rest ih =>
    intro done errs w
    cases hok : env.mark_as_read nid with
    | ok u =>
      have h := ih (done ++ [nid]) errs (world_delete_notification w nid)
      refine ⟨?_, ?_, ?_⟩
      · rw [mark_done_go, hok, h.1]
        simp [List.filter_cons, hok, Except.isOk, Except.toBool]
      · rw [mark_done_go, hok, h.2.1]
        simp [List.filterMap_cons, hok]
      · rw [mark_done_go, hok, h.2.2]
        show ((w.notifs.filter _).filter _) = _
        rw [List.filter_filter]
        refine List.filter_congr ?_
        intro n _
        by_cases hn : n.notification_id = nid
        · simp [world_delete_notification, delete_notification, hn, hok,
            Except.isOk, Except.toBool]
        · simp [world_delete_notification, delete_notification, hn]
    | error e =>
      have h := ih done (errs ++ [nid ++ ": " ++ e]) w
      refine ⟨?_, ?_, ?_⟩
      · rw [mark_done_go, hok, h.1]
        simp [List.filter_cons, hok, Except.isOk, Except.toBool]
      · rw [mark_done_go, hok, h.2.1]
        simp [List.filterMap_cons, hok]
      · rw [mark_done_go, hok, h.2.2]
        refine List.filter_congr ?_
        intro n _
        by_cases hn : n.notification_id = nid
        · simp [hn, hok, Except.isOk, Except.toBool]
        · simp [hn]

/-- C9: a bulk dismiss acknowledges each id in order, reports exactly the
ids whose remote acknowledgement succeeded plus one error entry per failed
id, and deletes a cached notification exactly when its id was dismissed
with a successful acknowledgement — failures block neither later ids nor
the response. -/
theorem handle_mark_done_spec (env : Env) (w : World) (ids : List String) :
    (handle_mark_done env w ids).1 =
        .ok (.markDoneResult
          (ids.filter (fun i => (env.mark_as_read i).isOk))
          (ids.filterMap (fun i =>
            match env.mark_as_read i with
            | .ok _ => none
            | .error e => some (i ++ ": " ++ e))))
      ∧ (handle_mark_done env w ids).2.notifs =
        w.notifs.filter (fun n =>
          ¬ (n.notification_id ∈ ids ∧
              (env.mark_as_read n.notification_id).isOk)) := by
  have h := mark_done_go_spec env ids [] [] w
  constructor
  · show Except.ok (Response.markDoneResult (mark_done_go env ids [] [] w).1
      (mark_done_go env ids [] [] w).2.1) = _
    rw [h.1, h.2.1]
    simp
  · show (mark_done_go env ids [] [] w).2.2.notifs = _
    rw [h.2.2]

/-! ## C7 — one response per request, errors converted, loop survives -/

/-- C7: the worker publishes exactly one response per request, and whenever
the dispatched handler raises, the published response is
`ErrorResult(type(req).__name__, str(e))` and the loop goes on to process
the remaining requests. -/
theorem backend_worker_one_response_per_request (env : Env) (w : World) :
    (∀ reqs, (backend_worker env w reqs).1.length = reqs.length)
    ∧ ∀ (req : Request) (rest : List Request) (e : String),
        (handle_request env w req).1 = .error e →
        backend_worker env w (req :: rest) =
          (Response.errorResult (variant_name req) e ::
            (backend_worker env (handle_request env w req).2 rest).1,
           (backend_worker env (handle_request env w req).2 rest).2) := by
  constructor
  · intro reqs
    induction reqs generalizing w with
    | nil => rfl
    | cons req rest ih => simp [backend_worker, ih]
  · intro req rest e he
    simp [backend_worker, he]

/-- A cached CheckSuite notification whose raw subject URL is null. -/
def nullUrlNotif : Notification :=
  { sampleNotif with
    notification_id := "3001"
    subject_type := "CheckSuite"
    subject_url := none
    raw_json := { sampleRaw with
      id := "3001", subjectType := "CheckSuite", subjectUrl := none } }

/-- A cached notification with an unrecognised (neither pull- nor
issue-shaped) raw subject URL. -/
def unrecognisedUrlNotif : Notification :=
  { sampleNotif with
    notification_id := "u1"
    subject_url := some "https://example.com/weird"
    raw_json := { sampleRaw with
      id := "u1", subjectUrl := some "https://example.com/weird" } }

/-- A cached notification with an issue-shaped raw subject URL. -/
def issueUrlNotif : Notification :=
  { sampleNotif with
    notification_id := "i1"
    subject_type := "Issue"
    subject_url := some "https://api.github.com/repos/NixOS/nixpkgs/issues/12345"
    raw_json := { sampleRaw with
      id := "i1", subjectType := "Issue"
      subjectUrl := some "https://api.github.com/repos/NixOS/nixpkgs/issues/12345" } }

/-- A concrete cache for the backend scenarios. -/
def testWorld : World :=
  { notifs := [nullUrlNotif, unrecognisedUrlNotif, sampleNotif, issueUrlNotif]
    comments := []
    pr_details := []
    pr_reviews := []
    review_comments := []
    pr_files := [] }

/-- A concrete gateway: comment fetches succeed only at the rewritten
comments endpoint of PR/issue 12345; everything else fails. -/
def testEnv : Env :=
  { mark_as_read := fun _ => .ok ()
    fetch_comments := fun u =>
      if u = "https://api.github.com/repos/NixOS/nixpkgs/issues/12345/comments"
      then .ok [{ id := "99999", user := some "alice", body := "LGTM"
                  created_at := "2026-02-09T06:55:00Z"
                  updated_at := "2026-02-09T06:55:00Z" }]
      else .error "404 Not Found"
    fetch_pr_metadata := fun _ => .error "boom"
    fetch_review_threads := fun _ => .error "boom"
    fetch_pr_files := fun _ => .error "boom"
    post_review_reply := fun _ _ _ => .error "boom"
    submit_review := fun _ _ _ => .error "boom"
    resolve_review_thread := fun _ => .error "boom"
    unresolve_review_thread := fun _ => .error "boom"
    now := "2026-02-09T12:00:00Z" }

/-- C7 witness: a fetch-comments request whose handler raises (null cached
subject URL) yields exactly one `ErrorResult` naming the variant, and the
worker state survives to process the (empty) remainder. -/
theorem backend_worker_one_response_per_request_witness :
    (handle_request testEnv testWorld (.fetchComments "3001")).1 =
      .error "argument of type 'NoneType' is not iterable"
    ∧ backend_worker testEnv testWorld [.fetchComments "3001"] =
      ([.errorResult "FetchCommentsRequest"
          "argument of type 'NoneType' is not iterable"], testWorld) := by
  have hErr : (handle_request testEnv testWorld (.fetchComments "3001")).1 =
      .error "argument of type 'NoneType' is not iterable" := by
    rfl
  refine ⟨hErr, ?_⟩
  rw [(backend_worker_one_response_per_request testEnv testWorld).2
    (.fetchComments "3001") [] _ hErr]
  rfl

/-! ## C8 — fetch-comments URL resolution -/

/-- C8: evaluated on the cached rows — a null raw subject URL makes the
handler raise `TypeError` (the worker then answers with an error response),
an unrecognised URL yields a zero-count success, and pull-shaped or
issue-shaped URLs are rewritten to the `/issues/<n>/comments` endpoint
(the gateway stub only answers at the rewritten endpoint, and both fetches
succeed). -/
theorem handle_fetch_comments_url_cases :
    handle_fetch_comments testEnv testWorld "3001" =
      (.error "argument of type 'NoneType' is not iterable", testWorld)
    ∧ (handle_fetch_comments testEnv testWorld "u1").1 =
      .ok (.fetchCommentsResult "u1" 0)
    ∧ (handle_fetch_comments testEnv testWorld "1001").1 =
      .ok (.fetchCommentsResult "1001" 1)
    ∧ (handle_fetch_comments testEnv testWorld "i1").1 =
      .ok (.fetchCommentsResult "i1" 1) := by
  refine ⟨rfl, rfl, rfl, rfl⟩
